import Mathlib

/-!
Shallow embedding of the `exex` Go package (a wrapper around the platform
process-execution facility `os/exec`) and proofs about its behaviour.

Byte sequences are modelled as `String`.  Go `error` values are modelled by
the inductive `GoError`; a nullable error is `Option GoError`.  The platform
primitive (`exec.Cmd.Run` / `Start` / `Wait`) is modelled from the spec's
description of the external collaborator: it delivers the bytes the child
process writes to the configured error-stream destination and reports the
exit status as an error value.  A process execution outcome is the pair of
the bytes it writes to its error stream and the error shape the platform
reports (`ProcBehavior`).
-/

/-- Destination of a command's standard-error stream, mirroring the Go
`Cmd.Stderr io.Writer` field.  `unset` is Go `nil`; `buffer` is a
`*bytes.Buffer` (whether installed by the wrapper or supplied by the caller,
since at runtime Go cannot tell them apart); `writer` is any other caller
supplied `io.Writer`.  Each carries the bytes written to it so far. -/
inductive StderrDest where
  | unset : StderrDest
  | buffer (contents : String) : StderrDest
  | writer (contents : String) : StderrDest
deriving DecidableEq, Repr

/-- Model of Go `error` values relevant to this package: `exitError` is
`*exec.ExitError` (its `Stderr []byte` field is `none` when the slice is
nil), `canceled` is `context.Canceled`, `errNotFound` is `exec.ErrNotFound`,
`execError` is `*exec.Error` (which unwraps to its inner error), `wrapped`
is an error built by `fmt.Errorf` with a `%w` verb, and `errorString` is a
plain formatted error. -/
inductive GoError where
  | exitError (stderr : Option String) (code : Int) : GoError
  | canceled : GoError
  | errNotFound : GoError
  | execError (name : String) (err : GoError) : GoError
  | wrapped (msg : String) (err : GoError) : GoError
  | errorString (msg : String) : GoError
deriving DecidableEq, Repr

/-- Rendering of `err.Error()` for the modelled error shapes, used where the
Go code formats an error with `%w` or `%v`. -/
def GoError.message : GoError → String
  | .exitError _ code => "exit status " ++ toString code
  | .canceled => "context canceled"
  | .errNotFound => "executable file not found in PATH"
  | .execError name err => "exec: " ++ name ++ ": " ++ GoError.message err
  | .wrapped msg _ => msg
  | .errorString msg => msg

/-- Model of `errors.As(err, &exErr)` for `exErr *exec.ExitError`: walk the
unwrap chain and return the `Stderr` field and exit code of the first
`*exec.ExitError` found. -/
def errorsAsExit : GoError → Option (Option String × Int)
  | .exitError st code => some (st, code)
  | .execError _ err => errorsAsExit err
  | .wrapped _ err => errorsAsExit err
  | _ => none

/-- Model of the direct type assertion `err.(*exec.ExitError)` used by the
`cmd.go` revision of `RunCommand`: succeeds only when the error itself is an
`*exec.ExitError`, without walking the unwrap chain. -/
def typeAssertExit : GoError → Option (Option String × Int)
  | .exitError st code => some (st, code)
  | _ => none

/-- Model of `errors.As(err, &e)` for `e *exec.Error` (= `*exex.Error`). -/
def errorsAsError : GoError → Option (String × GoError)
  | .execError name err => some (name, err)
  | .wrapped _ err => errorsAsError err
  | _ => none

/-- Model of `errors.Is(err, exec.ErrNotFound)`. -/
def errorsIsNotFound : GoError → Bool
  | .errNotFound => true
  | .execError _ err => errorsIsNotFound err
  | .wrapped _ err => errorsIsNotFound err
  | _ => false

/-- The `exex.Cmd` value (a cast of `exec.Cmd`): executable path, arguments,
working directory, environment, stream destinations and the optional
context.  `ctx = none` models a command built without a context;
`ctx = some b` models an attached context whose cancellation flag is `b`.
`stdout` and `stdin` are opaque to the wrapper and only matter for the
frame claim. -/
structure Cmd where
  path : String
  args : List String
  dir : String
  env : Option (List String)
  stdin : Option String
  stdout : Option String
  stderr : StderrDest
  ctx : Option Bool
deriving DecidableEq, Repr

/-- What one execution of the child process does: the bytes it writes to its
standard-error stream, and the shape of the result the platform reports. -/
inductive ProcResult where
  | success : ProcResult
  | exit (code : Int) : ProcResult
  | failWith (e : GoError) : ProcResult
deriving DecidableEq, Repr

/-- A process behaviour: error-stream output paired with the reported
result.  `exit code` stands for a non-zero exit, for which the platform
returns a fresh `*exec.ExitError` whose `Stderr` field is nil. -/
structure ProcBehavior where
  stderrOutput : String
  result : ProcResult
deriving DecidableEq, Repr

/-- Model of `ctx.Err()` on the command's context: `context.Canceled` when a
context is attached and already cancelled, nil otherwise. -/
def ctxErr (c : Cmd) : Option GoError :=
  match c.ctx with
  | some true => some GoError.canceled
  | _ => none

/-- Platform delivery of error-stream bytes to the configured destination
(an unset destination discards them, as Go connects the stream to the null
device). Modelled from the spec: the destination receives exactly the bytes
the process writes. -/
def writeStderr : StderrDest → String → StderrDest
  | .unset, _ => .unset
  | .buffer s, out => .buffer (s ++ out)
  | .writer s, out => .writer (s ++ out)

/-- Modelled from the spec: the platform wait primitive for an already
started process.  It delivers the process's error-stream bytes to the
destination and reports the exit status: nil on success, an
`*exec.ExitError` with nil `Stderr` on non-zero exit, or any other error
shape the platform produces. -/
def platformWait (c : Cmd) (p : ProcBehavior) : Cmd × Option GoError :=
  ({ c with stderr := writeStderr c.stderr p.stderrOutput },
   match p.result with
   | .success => none
   | .exit code => some (GoError.exitError none code)
   | .failWith e => some e)

/-- Modelled from the spec: the platform start primitive.  With an attached
context that is already cancelled it returns the context's own error without
spawning; otherwise the process is spawned. -/
def platformStart (c : Cmd) : Cmd × Option GoError :=
  (c, ctxErr c)

/-- Modelled from the spec: the platform run-to-completion primitive,
`exec.Cmd.Run`, which is start followed by wait. -/
def platformRun (c : Cmd) (p : ProcBehavior) : Cmd × Option GoError :=
  match ctxErr c with
  | some e => (c, some e)
  | none => platformWait c p

/-- Contents of a buffer destination, `stderr.Bytes()` in Go. -/
def stderrBytes : StderrDest → String
  | .buffer s => s
  | _ => ""

/-- Embedding of `exex.Cmd.Run` (src/exex.go): when `c.Stderr` is nil a
fresh 1024-byte-capacity buffer is installed, the platform run primitive is
invoked, and when the wrapper installed the buffer and the resulting error
chain contains an `*exec.ExitError`, that inner exit error is returned with
its `Stderr` field set to the buffer's bytes.  The returned `Cmd` is the
state of the caller's (mutated) command value after the call. -/
def Cmd.run (c : Cmd) (p : ProcBehavior) : Cmd × Option GoError :=
  let installed : Bool := match c.stderr with | .unset => true | _ => false
  let c1 := if installed then { c with stderr := StderrDest.buffer "" } else c
  let r := platformRun c1 p
  match r.2 with
  | none => r
  | some e =>
    if installed then
      match errorsAsExit e with
      | some x => (r.1, some (GoError.exitError (some (stderrBytes r.1.stderr)) x.2))
      | none => r
    else r

/-- Embedding of `exex.Cmd.Start` (src/exex.go): installs a fresh buffer
when `c.Stderr` is nil, then invokes the platform start primitive. -/
def Cmd.start (c : Cmd) : Cmd × Option GoError :=
  let c1 := match c.stderr with
    | StderrDest.unset => { c with stderr := StderrDest.buffer "" }
    | _ => c
  platformStart c1

/-- Embedding of `exex.Cmd.Wait` (src/exex.go): invokes the platform wait
primitive, and when `c.Stderr` is (a type assertion succeeds on) a
`*bytes.Buffer` and the error chain contains an `*exec.ExitError`, returns
that exit error with `Stderr` set to the buffer's bytes. -/
def Cmd.wait (c : Cmd) (p : ProcBehavior) : Cmd × Option GoError :=
  let r := platformWait c p
  match r.2 with
  | none => r
  | some e =>
    match r.1.stderr with
    | StderrDest.buffer contents =>
      match errorsAsExit e with
      | some x => (r.1, some (GoError.exitError (some contents) x.2))
      | none => r
    | _ => r

/-- The start-then-wait execution path: `Start`, and when it succeeds,
`Wait` on the started command. -/
def runViaStartWait (c : Cmd) (p : ProcBehavior) : Cmd × Option GoError :=
  match Cmd.start c with
  | (c1, some e) => (c1, some e)
  | (c1, none) => Cmd.wait c1 p

/-- Embedding of `exex.Command`: a command with the given path and
arguments and all optional fields at their zero values. -/
def Command (name : String) (args : List String) : Cmd :=
  { path := name, args := args, dir := "", env := none, stdin := none,
    stdout := none, stderr := StderrDest.unset, ctx := none }

/-- Embedding of `exex.CommandContext`: like `Command` with a context
attached, whose cancellation flag is `cancelled`. -/
def CommandContext (cancelled : Bool) (name : String) (args : List String) : Cmd :=
  { Command name args with ctx := some cancelled }

/-- Embedding of `exex.RunCommand` (src/exex.go): casts the given command
and calls `Cmd.run` on it. -/
def RunCommand (c : Cmd) (p : ProcBehavior) : Cmd × Option GoError :=
  Cmd.run c p

/-- Embedding of the one-shot `exex.Run`. -/
def Run (name : String) (args : List String) (p : ProcBehavior) : Option GoError :=
  (Cmd.run (Command name args) p).2

/-- Embedding of the one-shot `exex.RunContext`. -/
def RunContext (cancelled : Bool) (name : String) (args : List String)
    (p : ProcBehavior) : Option GoError :=
  (Cmd.run (CommandContext cancelled name args) p).2

namespace CmdGo

/-- Embedding of the `RunCommand` revision in src/cmd.go, which differs from
src/exex.go only in recognizing the exit error by a direct type assertion
instead of walking the unwrap chain. -/
def RunCommand (c : Cmd) (p : ProcBehavior) : Cmd × Option GoError :=
  let installed : Bool := match c.stderr with | .unset => true | _ => false
  let c1 := if installed then { c with stderr := StderrDest.buffer "" } else c
  let r := platformRun c1 p
  match r.2 with
  | none => r
  | some e =>
    match typeAssertExit e, installed with
    | some x, true => (r.1, some (GoError.exitError (some (stderrBytes r.1.stderr)) x.2))
    | _, _ => r

end CmdGo

/-- Embedding of `exex.CommandError` (src/exex.go): nil in, nil out; a
fixed usage error when the chain holds no `*exec.ExitError`; otherwise the
message wrapping the error, with the exit error's raw `Stderr` bytes
appended after a newline exactly when that field is non-nil. -/
def CommandError (err : Option GoError) (errMsg : String) : Option GoError :=
  match err with
  | none => none
  | some e =>
    match errorsAsExit e with
    | none => some (GoError.errorString "error converting error to exex.ExitError")
    | some x =>
      match x.1 with
      | none => some (GoError.wrapped (errMsg ++ " (" ++ e.message ++ ")") e)
      | some bytes =>
        some (GoError.wrapped (errMsg ++ " (" ++ e.message ++ ")\n" ++ bytes) e)

/-- First directory of the search path containing an executable named
`name`.  The search path is modelled as a list of directories paired with
the executable names they hold. -/
def findDir : List (String × List String) → String → Option String
  | [], _ => none
  | (d, files) :: rest, name =>
    if name ∈ files then some d else findDir rest name

/-- Modelled from the spec: `exex.LookPath` is an alias for `exec.LookPath`
(Go standard library, not part of src/).  Per the spec it delegates to the
platform executable-search primitive and, on a miss, fails with the
platform's `*exec.Error` (= `exex.Error`) wrapping the not-found sentinel,
so the failure is recognizable under both taxonomies; on a hit it returns
the absolute path of the executable inside the matching directory. -/
def LookPath (searchPath : List (String × List String)) (name : String) :
    String ⊕ GoError :=
  match findDir searchPath name with
  | some d => Sum.inl (d ++ "/" ++ name)
  | none => Sum.inr (GoError.execError name GoError.errNotFound)

theorem str_empty_append (s : String) : "" ++ s = s := by
  cases s
  rfl

theorem ctxErr_set_stderr (c : Cmd) (d : StderrDest) :
    ctxErr { c with stderr := d } = ctxErr c := rfl

theorem run_capture_core (c : Cmd) (p : ProcBehavior) (code : Int)
    (hs : c.stderr = StderrDest.unset) (hc : ctxErr c = none)
    (hr : p.result = ProcResult.exit code) :
    (Cmd.run c p).2 = some (GoError.exitError (some p.stderrOutput) code) := by
  simp [Cmd.run, hs, platformRun, ctxErr_set_stderr, hc, platformWait, hr,
    writeStderr, errorsAsExit, stderrBytes, str_empty_append]

theorem cmdGo_run_capture_core (c : Cmd) (p : ProcBehavior) (code : Int)
    (hs : c.stderr = StderrDest.unset) (hc : ctxErr c = none)
    (hr : p.result = ProcResult.exit code) :
    (CmdGo.RunCommand c p).2 = some (GoError.exitError (some p.stderrOutput) code) := by
  simp [CmdGo.RunCommand, hs, platformRun, ctxErr_set_stderr, hc, platformWait, hr,
    writeStderr, typeAssertExit, stderrBytes, str_empty_append]

/-- C1: for every command whose error-stream destination is unset when `Run`
(or the one-shot helpers `Run`, `RunContext`, `RunCommand` — including the
src/cmd.go revision) is invoked, if the process exits with non-zero status
then the returned error is an exit failure whose `Stderr` field equals
exactly the bytes the process wrote to its standard-error stream, with no
truncation and no added or removed bytes. -/
theorem run_unset_captures_stderr_exactly (p : ProcBehavior) (code : Int)
    (hr : p.result = ProcResult.exit code) :
    (∀ c : Cmd, c.stderr = StderrDest.unset → ctxErr c = none →
        (Cmd.run c p).2 = some (GoError.exitError (some p.stderrOutput) code) ∧
        (RunCommand c p).2 = some (GoError.exitError (some p.stderrOutput) code) ∧
        (CmdGo.RunCommand c p).2 = some (GoError.exitError (some p.stderrOutput) code)) ∧
    (∀ (name : String) (args : List String),
        Run name args p = some (GoError.exitError (some p.stderrOutput) code)) ∧
    (∀ (name : String) (args : List String),
        RunContext false name args p = some (GoError.exitError (some p.stderrOutput) code)) := by
  refine ⟨fun c hs hc => ⟨?_, ?_, ?_⟩, fun name args => ?_, fun name args => ?_⟩
  · exact run_capture_core c p code hs hc hr
  · exact run_capture_core c p code hs hc hr
  · exact cmdGo_run_capture_core c p code hs hc hr
  · exact run_capture_core (Command name args) p code rfl rfl hr
  · exact run_capture_core (CommandContext false name args) p code rfl rfl hr

/-- Witness for C1, refs the self-test scenario: the process writes
`"error: foo bar"` to stderr and exits 1. -/
theorem run_unset_captures_stderr_exactly_witness :
    (ProcBehavior.mk "error: foo bar" (ProcResult.exit 1)).result = ProcResult.exit 1 ∧
    (Command "self-test" ["foo", "bar"]).stderr = StderrDest.unset ∧
    ctxErr (Command "self-test" ["foo", "bar"]) = none ∧
    (Cmd.run (Command "self-test" ["foo", "bar"])
        (ProcBehavior.mk "error: foo bar" (ProcResult.exit 1))).2
      = some (GoError.exitError (some "error: foo bar") 1) :=
  ⟨rfl, rfl, rfl,
    ((run_unset_captures_stderr_exactly
        (ProcBehavior.mk "error: foo bar" (ProcResult.exit 1)) 1 rfl).1
      (Command "self-test" ["foo", "bar"]) rfl rfl).1⟩

/-- Counterexample to C2: a caller pre-sets a custom error-stream
destination that happens to be a `*bytes.Buffer`; on the Start-then-Wait
path the returned exit failure's diagnostic payload is populated from that
buffer rather than staying empty/absent, so the claim fails on that
execution path. -/
theorem startWait_custom_buffer_payload_not_absent :
    (runViaStartWait
        (Cmd.mk "bin" ["a"] "" none none none (StderrDest.buffer "") none)
        (ProcBehavior.mk "x" (ProcResult.exit 1))).2
      = some (GoError.exitError (some "x") 1) ∧
    (some "x" : Option String) ≠ none := ⟨by decide, by decide⟩

/-- C2 as amended: for a command with a caller pre-set error-stream
destination, the wrapper performs no capture and the destination receives
exactly the bytes written; the returned platform error stays unmodified
(diagnostic payload absent) on the Run path always, and on the
Start-then-Wait path whenever the custom destination is not a
`*bytes.Buffer`.  (When the caller pre-set a `*bytes.Buffer`, Wait
populates the payload from it — the counterexample above.) -/
theorem run_custom_stderr_passthrough (c : Cmd) (p : ProcBehavior) (code : Int)
    (hc : ctxErr c = none) (hr : p.result = ProcResult.exit code) :
    (∀ s, c.stderr = StderrDest.writer s →
        (Cmd.run c p).2 = some (GoError.exitError none code) ∧
        (Cmd.run c p).1.stderr = StderrDest.writer (s ++ p.stderrOutput) ∧
        (runViaStartWait c p).2 = some (GoError.exitError none code) ∧
        (runViaStartWait c p).1.stderr = StderrDest.writer (s ++ p.stderrOutput)) ∧
    (∀ s, c.stderr = StderrDest.buffer s →
        (Cmd.run c p).2 = some (GoError.exitError none code) ∧
        (Cmd.run c p).1.stderr = StderrDest.buffer (s ++ p.stderrOutput)) := by
  constructor
  · intro s hs
    refine ⟨?_, ?_, ?_, ?_⟩ <;>
      simp [Cmd.run, runViaStartWait, Cmd.start, Cmd.wait, platformStart,
        platformRun, platformWait, writeStderr, hs, hc, hr]
  · intro s hs
    constructor <;>
      simp [Cmd.run, platformRun, platformWait, writeStderr, hs, hc, hr]

/-- Witness for C2 (amended) at a concrete command with a caller-supplied
plain writer destination. -/
theorem run_custom_stderr_passthrough_witness :
    ctxErr (Cmd.mk "bin" ["a"] "" none none none (StderrDest.writer "") none) = none ∧
    (ProcBehavior.mk "x" (ProcResult.exit 1)).result = ProcResult.exit 1 ∧
    (Cmd.run (Cmd.mk "bin" ["a"] "" none none none (StderrDest.writer "") none)
        (ProcBehavior.mk "x" (ProcResult.exit 1))).2
      = some (GoError.exitError none 1) :=
  ⟨rfl, rfl,
    (((run_custom_stderr_passthrough
        (Cmd.mk "bin" ["a"] "" none none none (StderrDest.writer "") none)
        (ProcBehavior.mk "x" (ProcResult.exit 1)) 1 rfl rfl).1 "" rfl).1)⟩

/-- Counterexample to C3: with a caller pre-set `*bytes.Buffer` destination,
Run returns the exit failure with an absent payload while Start-then-Wait
returns it with the buffer's bytes as payload, so the two execution paths
are not equivalent on every command. -/
theorem startWait_differs_from_run_on_custom_buffer :
    (Cmd.run (Cmd.mk "bin" ["a"] "" none none none (StderrDest.buffer "") none)
        (ProcBehavior.mk "x" (ProcResult.exit 1))).2
      = some (GoError.exitError none 1) ∧
    (runViaStartWait
        (Cmd.mk "bin" ["a"] "" none none none (StderrDest.buffer "") none)
        (ProcBehavior.mk "x" (ProcResult.exit 1))).2
      = some (GoError.exitError (some "x") 1) ∧
    (Cmd.run (Cmd.mk "bin" ["a"] "" none none none (StderrDest.buffer "") none)
        (ProcBehavior.mk "x" (ProcResult.exit 1))).2
      ≠ (runViaStartWait
          (Cmd.mk "bin" ["a"] "" none none none (StderrDest.buffer "") none)
          (ProcBehavior.mk "x" (ProcResult.exit 1))).2 :=
  ⟨by decide, by decide, by decide⟩

/-- C3 as amended: Start installs the capture sink exactly when the
error-stream destination is unset, and Start-then-Wait yields exactly the
same result (final command state and returned error) as Run whenever the
destination was unset or a caller-supplied non-buffer writer; only when the
caller pre-set a `*bytes.Buffer` do the paths diverge (the counterexample
above). -/
theorem startWait_equiv_run_unless_custom_buffer (p : ProcBehavior) :
    (∀ c : Cmd, c.stderr = StderrDest.unset → runViaStartWait c p = Cmd.run c p) ∧
    (∀ (c : Cmd) (s : String), c.stderr = StderrDest.writer s →
        runViaStartWait c p = Cmd.run c p) ∧
    (∀ c : Cmd, (Cmd.start c).1.stderr =
        match c.stderr with
        | StderrDest.unset => StderrDest.buffer ""
        | d => d) := by
  have hctx : ∀ c : Cmd, ctxErr c = none ∨ ctxErr c = some GoError.canceled := by
    intro c
    unfold ctxErr
    rcases c.ctx with _ | b
    · exact Or.inl rfl
    · cases b
      · exact Or.inl rfl
      · exact Or.inr rfl
  refine ⟨?_, ?_, ?_⟩
  · intro c hs
    rcases hctx c with hb | hb
    · cases hr : p.result with
      | success =>
        simp [runViaStartWait, Cmd.start, Cmd.wait, Cmd.run, platformStart,
          platformRun, platformWait, writeStderr, ctxErr_set_stderr, hs, hb, hr]
      | exit code =>
        simp [runViaStartWait, Cmd.start, Cmd.wait, Cmd.run, platformStart,
          platformRun, platformWait, writeStderr, ctxErr_set_stderr, hs, hb, hr,
          errorsAsExit, stderrBytes]
      | failWith e =>
        cases he : errorsAsExit e <;>
          simp [runViaStartWait, Cmd.start, Cmd.wait, Cmd.run, platformStart,
            platformRun, platformWait, writeStderr, ctxErr_set_stderr, hs, hb, hr,
            he, stderrBytes]
    · simp [runViaStartWait, Cmd.start, Cmd.wait, Cmd.run, platformStart,
        platformRun, platformWait, ctxErr_set_stderr, hs, hb, errorsAsExit]
  · intro c s hs
    rcases hctx c with hb | hb
    · cases hr : p.result with
      | success =>
        simp [runViaStartWait, Cmd.start, Cmd.wait, Cmd.run, platformStart,
          platformRun, platformWait, writeStderr, hs, hb, hr]
      | exit code =>
        simp [runViaStartWait, Cmd.start, Cmd.wait, Cmd.run, platformStart,
          platformRun, platformWait, writeStderr, hs, hb, hr]
      | failWith e =>
        simp [runViaStartWait, Cmd.start, Cmd.wait, Cmd.run, platformStart,
          platformRun, platformWait, writeStderr, hs, hb, hr]
    · simp [runViaStartWait, Cmd.start, Cmd.wait, Cmd.run, platformStart,
        platformRun, platformWait, hs, hb]
  · intro c
    cases hs : c.stderr <;> simp [Cmd.start, platformStart, hs]

/-- Witness for C3 (amended) at a concrete command with an unset
destination. -/
theorem startWait_equiv_run_unless_custom_buffer_witness :
    (Command "bin" ["a"]).stderr = StderrDest.unset ∧
    runViaStartWait (Command "bin" ["a"]) (ProcBehavior.mk "x" (ProcResult.exit 1))
      = Cmd.run (Command "bin" ["a"]) (ProcBehavior.mk "x" (ProcResult.exit 1)) :=
  ⟨rfl,
    (startWait_equiv_run_unless_custom_buffer
        (ProcBehavior.mk "x" (ProcResult.exit 1))).1 (Command "bin" ["a"]) rfl⟩

/-- Counterexample to C4: an exit failure whose diagnostic payload is
present but empty (a captured zero-length stderr, as produced when the
capture sink was installed and the process wrote nothing).  The payload is
empty, yet `CommandError` emits the payload-bearing format, appending a
newline, instead of the payload-free `message wrapping error` format. -/
theorem commandError_empty_payload_gets_payload_format :
    CommandError (some (GoError.exitError (some "") 1)) "m"
      = some (GoError.wrapped "m (exit status 1)\n" (GoError.exitError (some "") 1)) ∧
    "m (exit status 1)\n" ≠ "m (exit status 1)" := ⟨by decide, by decide⟩

/-- C4 as amended: for every non-nil error recognized as an exit failure
and every message, `CommandError` returns the message wrapping the error
without any payload when the diagnostic payload is absent (a nil `Stderr`
field), and returns the message wrapping the error followed by the raw
diagnostic bytes on a separate line, verbatim, whenever the payload is
present (non-nil), including when it is zero-length. -/
theorem commandError_exit_formats (e : GoError) (msg : String)
    (x : Option String × Int) (he : errorsAsExit e = some x) :
    (x.1 = none →
        CommandError (some e) msg
          = some (GoError.wrapped (msg ++ " (" ++ e.message ++ ")") e)) ∧
    (∀ bytes, x.1 = some bytes →
        CommandError (some e) msg
          = some (GoError.wrapped (msg ++ " (" ++ e.message ++ ")\n" ++ bytes) e)) := by
  constructor
  · intro hx
    simp [CommandError, he, hx]
  · intro bytes hx
    simp [CommandError, he, hx]

/-- Witness for C4 (amended), refs the spec scenario: annotating an exit
failure carrying payload `"boom"` with message `"step failed"`. -/
theorem commandError_exit_formats_witness :
    errorsAsExit (GoError.exitError (some "boom") 1) = some (some "boom", 1) ∧
    CommandError (some (GoError.exitError (some "boom") 1)) "step failed"
      = some (GoError.wrapped "step failed (exit status 1)\nboom"
          (GoError.exitError (some "boom") 1)) :=
  ⟨rfl,
    (commandError_exit_formats (GoError.exitError (some "boom") 1) "step failed"
        (some "boom", 1) rfl).2 "boom" rfl⟩

/-- C5: for every command carrying a context that is already cancelled
before execution, running it (`RunContext`, or `Cmd.run` on any such
command whatever its stderr destination) returns the context's own
cancellation error unchanged, which is not an exit failure, bypassing
diagnostic enrichment. -/
theorem runContext_cancelled_returns_ctx_error (p : ProcBehavior) :
    (∀ (name : String) (args : List String),
        RunContext true name args p = some GoError.canceled) ∧
    (∀ c : Cmd, c.ctx = some true → (Cmd.run c p).2 = some GoError.canceled) ∧
    (∀ (st : Option String) (code : Int),
        GoError.canceled ≠ GoError.exitError st code) := by
  refine ⟨?_, ?_, ?_⟩
  · intro name args
    simp [RunContext, Cmd.run, CommandContext, Command, platformRun, ctxErr,
      errorsAsExit]
  · intro c hb
    cases hs : c.stderr <;>
      simp [Cmd.run, platformRun, ctxErr, hs, hb, errorsAsExit]
  · intro st code h
    exact GoError.noConfusion h

/-- Witness for C5 at a concrete command carrying a cancelled context. -/
theorem runContext_cancelled_returns_ctx_error_witness :
    (CommandContext true "bin" ["a"]).ctx = some true ∧
    (Cmd.run (CommandContext true "bin" ["a"])
        (ProcBehavior.mk "x" (ProcResult.exit 1))).2 = some GoError.canceled :=
  ⟨rfl,
    (runContext_cancelled_returns_ctx_error
        (ProcBehavior.mk "x" (ProcResult.exit 1))).2.1
      (CommandContext true "bin" ["a"]) rfl⟩

/-- C6: for every non-nil error not recognizable as an exit failure and
every message, `CommandError` returns the generic usage-failure error; as a
total function it never panics. -/
theorem commandError_non_exit_usage_failure (e : GoError) (msg : String)
    (he : errorsAsExit e = none) :
    CommandError (some e) msg
      = some (GoError.errorString "error converting error to exex.ExitError") := by
  simp [CommandError, he]

/-- Witness for C6 at the cancellation error, which no exit failure chain
contains. -/
theorem commandError_non_exit_usage_failure_witness :
    errorsAsExit GoError.canceled = none ∧
    CommandError (some GoError.canceled) "m"
      = some (GoError.errorString "error converting error to exex.ExitError") :=
  ⟨rfl, commandError_non_exit_usage_failure GoError.canceled "m" rfl⟩

/-- C7: for every message, annotating a nil error returns nil. -/
theorem commandError_nil_returns_nil (msg : String) :
    CommandError none msg = none := rfl

/-- C8: for every executable name not present in any directory of the
search path, `LookPath` fails with an error that is simultaneously
recognizable as the wrapper's own `Error` kind and as the platform's native
not-found sentinel; for every name present in a directory of the search
path, it returns the absolute path of the executable in the first matching
directory. -/
theorem lookPath_dual_taxonomy (searchPath : List (String × List String))
    (name : String) :
    (findDir searchPath name = none →
        LookPath searchPath name
          = Sum.inr (GoError.execError name GoError.errNotFound) ∧
        errorsAsError (GoError.execError name GoError.errNotFound)
          = some (name, GoError.errNotFound) ∧
        errorsIsNotFound (GoError.execError name GoError.errNotFound) = true) ∧
    (∀ d, findDir searchPath name = some d →
        LookPath searchPath name = Sum.inl (d ++ "/" ++ name)) := by
  constructor
  · intro hf
    exact ⟨by simp [LookPath, hf], rfl, rfl⟩
  · intro d hf
    simp [LookPath, hf]

/-- Witness for C8: a one-directory search path holding only `ls`; lookup
of `foobarbazquux` misses and lookup of `ls` resolves. -/
theorem lookPath_dual_taxonomy_witness :
    findDir [("/bin", ["ls"])] "foobarbazquux" = none ∧
    LookPath [("/bin", ["ls"])] "foobarbazquux"
      = Sum.inr (GoError.execError "foobarbazquux" GoError.errNotFound) ∧
    findDir [("/bin", ["ls"])] "ls" = some "/bin" ∧
    LookPath [("/bin", ["ls"])] "ls" = Sum.inl "/bin/ls" :=
  ⟨by decide,
    ((lookPath_dual_taxonomy [("/bin", ["ls"])] "foobarbazquux").1 (by decide)).1,
    by decide,
    (lookPath_dual_taxonomy [("/bin", ["ls"])] "ls").2 "/bin" (by decide)⟩

/-- C9: for every execution in which the wrapper installed its own capture
sink, if the platform call reports an error that is not itself an exit
failure but whose unwrap chain contains one, `Run` returns the inner exit
failure with its diagnostic payload populated from the sink, discarding the
outer wrapping error. -/
theorem run_narrows_wrapped_exit (c : Cmd) (p : ProcBehavior) (e : GoError)
    (x : Option String × Int) (hs : c.stderr = StderrDest.unset)
    (hc : ctxErr c = none) (hr : p.result = ProcResult.failWith e)
    (he : errorsAsExit e = some x) :
    (Cmd.run c p).2 = some (GoError.exitError (some p.stderrOutput) x.2) := by
  simp [Cmd.run, hs, platformRun, ctxErr_set_stderr, hc, platformWait, hr,
    writeStderr, he, stderrBytes, str_empty_append]

/-- Witness for C9: the platform reports a wrapping error around an exit
failure with code 7; `Run` returns the inner exit failure enriched with the
captured bytes, not the wrapper. -/
theorem run_narrows_wrapped_exit_witness :
    errorsAsExit (GoError.wrapped "signal: killed"
        (GoError.exitError none 7)) = some (none, 7) ∧
    (Cmd.run (Command "bin" [])
        (ProcBehavior.mk "oops"
          (ProcResult.failWith
            (GoError.wrapped "signal: killed" (GoError.exitError none 7))))).2
      = some (GoError.exitError (some "oops") 7) :=
  ⟨rfl,
    run_narrows_wrapped_exit (Command "bin" [])
      (ProcBehavior.mk "oops"
        (ProcResult.failWith
          (GoError.wrapped "signal: killed" (GoError.exitError none 7))))
      (GoError.wrapped "signal: killed" (GoError.exitError none 7))
      (none, 7) rfl rfl rfl rfl⟩

theorem ctxErr_canceled (c : Cmd) (e : GoError) (h : ctxErr c = some e) :
    e = GoError.canceled := by
  unfold ctxErr at h
  rcases hb : c.ctx with _ | b
  · rw [hb] at h
    exact Option.noConfusion h
  · cases b
    · rw [hb] at h
      exact Option.noConfusion h
    · rw [hb] at h
      exact (Option.some.inj h).symm

/-- C10: `RunCommand` (and hence a command's `Run`) mutates the caller's
command value: for every command whose error-stream destination is nil on
entry, after the call the `Stderr` field is set to the wrapper's capture
buffer (holding the process's error-stream bytes when the process actually
ran), while every other field of the command is left unchanged by the
wrapper. -/
theorem runCommand_sets_stderr_frame (c : Cmd) (p : ProcBehavior)
    (hs : c.stderr = StderrDest.unset) :
    ((RunCommand c p).1.path = c.path ∧ (RunCommand c p).1.args = c.args ∧
     (RunCommand c p).1.dir = c.dir ∧ (RunCommand c p).1.env = c.env ∧
     (RunCommand c p).1.stdin = c.stdin ∧ (RunCommand c p).1.stdout = c.stdout ∧
     (RunCommand c p).1.ctx = c.ctx) ∧
    (∃ s, (RunCommand c p).1.stderr = StderrDest.buffer s) ∧
    (ctxErr c = none →
        (RunCommand c p).1.stderr = StderrDest.buffer p.stderrOutput) := by
  rcases hb : ctxErr c with _ | e
  · cases hr : p.result with
    | success =>
      refine ⟨⟨?_, ?_, ?_, ?_, ?_, ?_, ?_⟩, ⟨p.stderrOutput, ?_⟩, fun _ => ?_⟩ <;>
        simp [RunCommand, Cmd.run, hs, platformRun, ctxErr_set_stderr, hb,
          platformWait, hr, writeStderr, str_empty_append]
    | exit code =>
      refine ⟨⟨?_, ?_, ?_, ?_, ?_, ?_, ?_⟩, ⟨p.stderrOutput, ?_⟩, fun _ => ?_⟩ <;>
        simp [RunCommand, Cmd.run, hs, platformRun, ctxErr_set_stderr, hb,
          platformWait, hr, writeStderr, errorsAsExit, str_empty_append]
    | failWith e =>
      cases he : errorsAsExit e <;>
        (refine ⟨⟨?_, ?_, ?_, ?_, ?_, ?_, ?_⟩, ⟨p.stderrOutput, ?_⟩, fun _ => ?_⟩ <;>
          simp [RunCommand, Cmd.run, hs, platformRun, ctxErr_set_stderr, hb,
            platformWait, hr, writeStderr, he, str_empty_append])
  · have he2 : e = GoError.canceled := ctxErr_canceled c e hb
    subst he2
    refine ⟨⟨?_, ?_, ?_, ?_, ?_, ?_, ?_⟩, ⟨"", ?_⟩, fun hn => absurd hn (by simp [hb])⟩ <;>
      simp [RunCommand, Cmd.run, hs, platformRun, ctxErr_set_stderr, hb,
        errorsAsExit]

/-- Witness for C10: running a freshly built command mutates its `Stderr`
field to the capture buffer and leaves the remaining fields intact. -/
theorem runCommand_sets_stderr_frame_witness :
    (Command "bin" ["a"]).stderr = StderrDest.unset ∧
    (RunCommand (Command "bin" ["a"])
        (ProcBehavior.mk "x" (ProcResult.exit 1))).1.stderr
      = StderrDest.buffer "x" :=
  ⟨rfl,
    (runCommand_sets_stderr_frame (Command "bin" ["a"])
        (ProcBehavior.mk "x" (ProcResult.exit 1)) rfl).2.2 rfl⟩
